import Mathlib

/-!
# Verification of the DBF venue-finder pipeline

Shallow embedding of the three front-end variants of the repository:

* `WebhookV1` — `src/index.tsx`, first document (lines 1–148): webhook relay
  with `displayResults` and the message-sniffing `handleError`.
* `WebhookV2` — `src/index.tsx`, second document (lines 149–321): webhook relay
  with `safeDisplay` / `renderResults` / `renderError`.
* `Structured` — `src/unnamed/part_001`: the Gemini structured-schema variant
  with its own `safeDisplay`, fenced-code-block stripping and `renderResults`.

JavaScript dynamic values are embedded as the inductive `JSValue`; platform
primitives that the source calls (`String()`, `typeof`, truthiness,
`encodeURIComponent`, `String.prototype.trim/substring/startsWith`,
`Number.prototype.toFixed`) are modelled below, each next to the definition
that uses it.
-/

/-- A JavaScript value, as far as the untrusted backend payloads range over
them: `null`, `undefined`, booleans, (finite) numbers, strings, arrays and
plain objects (association lists of string keys). -/
inductive JSValue where
  | null
  | undefined
  | bool (b : Bool)
  | num (q : Rat)
  | str (s : String)
  | arr (elems : List JSValue)
  | obj (fields : List (String × JSValue))

/-- JS `typeof` on a `JSValue` (`typeof null` is `"object"`, arrays are
`"object"`). -/
def jsTypeof : JSValue → String
  | JSValue.null => "object"
  | JSValue.undefined => "undefined"
  | JSValue.bool _ => "boolean"
  | JSValue.num _ => "number"
  | JSValue.str _ => "string"
  | JSValue.arr _ => "object"
  | JSValue.obj _ => "object"

/-- JS `Array.isArray`. -/
def jsIsArray : JSValue → Bool
  | JSValue.arr _ => true
  | _ => false

/-- JS truthiness (`Boolean(v)`): `null`, `undefined`, `false`, `0` and `""`
are falsy; every other modelled value is truthy.  (`NaN` is not modelled; no
claim exercises it.) -/
def jsTruthy : JSValue → Bool
  | JSValue.null => false
  | JSValue.undefined => false
  | JSValue.bool b => b
  | JSValue.num q => if q = 0 then false else true
  | JSValue.str s => if s = "" then false else true
  | JSValue.arr _ => true
  | JSValue.obj _ => true

/-- JS number-to-string (`String(n)`), modelled exactly on integers and on
numbers with a finite decimal expansion of up to 20 fractional digits — which
covers every numeral this repository handles; a value with an infinite decimal
expansion (never produced here) falls back to a fraction rendering. -/
def jsNumToString (q : Rat) : String :=
  if q.den = 1 then toString q.num
  else
    match (List.range 20).find? (fun k => (q * (10 : Rat) ^ (k + 1)).den == 1) with
    | some k0 =>
        let k := k0 + 1
        let m := (q * (10 : Rat) ^ k).num.natAbs
        let sign := if q < 0 then "-" else ""
        let fpStr := toString (m % 10 ^ k)
        let zeros := String.mk (List.replicate (k - fpStr.length) (Char.ofNat 48))
        sign ++ toString (m / 10 ^ k) ++ "." ++ zeros ++ fpStr
    | none => toString q.num ++ "/" ++ toString q.den

mutual

/-- JS `String(v)` / template-literal coercion: strings unchanged, numbers and
booleans printed, `null`/`undefined` named, arrays joined by `","` as in
`Array.prototype.toString` (where `null`/`undefined` elements become empty),
plain objects rendered `"[object Object]"`. -/
def jsToString : JSValue → String
  | JSValue.null => "null"
  | JSValue.undefined => "undefined"
  | JSValue.bool b => if b then "true" else "false"
  | JSValue.num q => jsNumToString q
  | JSValue.str s => s
  | JSValue.arr elems => jsJoinComma elems
  | JSValue.obj _ => "[object Object]"

/-- `Array.prototype.join(",")` over the element coercion `jsElemString`. -/
def jsJoinComma : List JSValue → String
  | [] => ""
  | [v] => jsElemString v
  | v :: rest => jsElemString v ++ "," ++ jsJoinComma rest

/-- Element coercion used by `Array.prototype.join`: `null` and `undefined`
become the empty string, every other value its `String()` form. -/
def jsElemString : JSValue → String
  | JSValue.null => ""
  | JSValue.undefined => ""
  | JSValue.bool b => if b then "true" else "false"
  | JSValue.num q => jsNumToString q
  | JSValue.str s => s
  | JSValue.arr elems => jsJoinComma elems
  | JSValue.obj _ => "[object Object]"

end

/-- JS `ToNumber` (the `Number(v)` conversion) on the values the pipeline
feeds it: `null ↦ 0`, booleans to `0`/`1`, numbers unchanged; `undefined`,
objects, arrays and non-numeric strings give `NaN`, modelled as `none`.
(Numeric-string parsing is not modelled; no claim exercises it — every rating
the claims evaluate is a number or absent.) -/
def jsToNumber : JSValue → Option Rat
  | JSValue.null => some 0
  | JSValue.bool b => some (if b then 1 else 0)
  | JSValue.num q => some q
  | _ => none

/-- JS `Number.prototype.toFixed(1)`: round to the nearest tenth, ties toward
the larger value, and print with exactly one fractional digit. -/
def toFixed1 (q : Rat) : String :=
  let n : Int := ⌊q * 10 + 1 / 2⌋
  let m := n.natAbs
  let sign := if n < 0 then "-" else ""
  sign ++ toString (m / 10) ++ "." ++ toString (m % 10)

/-- `toFixed(1)` after a `ToNumber` conversion, `NaN` printing as `"NaN"`. -/
def toFixed1Opt : Option Rat → String
  | some q => toFixed1 q
  | none => "NaN"

/-- JS property access `v[key]` on the values the pipeline reads properties
from: on a plain object the bound value (first binding wins), otherwise
`undefined` (primitives and arrays have no `bars` property). -/
def getProp (v : JSValue) (key : String) : JSValue :=
  match v with
  | JSValue.obj fields =>
      match fields.lookup key with
      | some x => x
      | none => JSValue.undefined
  | _ => JSValue.undefined

/-- Character-list prefix test (first argument is the candidate prefix). -/
def leadsWith : List Char → List Char → Bool
  | [], _ => true
  | _ :: _, [] => false
  | a :: as, b :: bs => a == b && leadsWith as bs

/-- Character-list containment: does the first list occur consecutively
somewhere in the second? -/
def containsSeq (sub : List Char) : List Char → Bool
  | [] => leadsWith sub []
  | c :: rest => leadsWith sub (c :: rest) || containsSeq sub rest

/-- Substring containment, `String.prototype.includes`. -/
def includesSub (s sub : String) : Bool :=
  containsSeq sub.data s.data

/-- `String.prototype.startsWith`. -/
def jsStartsWith (s pre : String) : Bool :=
  leadsWith pre.data s.data

/-- `String.prototype.trim`: strip whitespace from both ends. -/
def jsTrim (s : String) : String :=
  String.mk (((s.data.dropWhile Char.isWhitespace).reverse.dropWhile
    Char.isWhitespace).reverse)

/-- `String.prototype.substring(i, j)`: clamp both indices into `[0, length]`,
swap them when out of order, and take the characters in between. -/
def jsSubstring (s : String) (i j : Int) : String :=
  let len : Int := s.length
  let a := (max 0 (min i len)).toNat
  let b := (max 0 (min j len)).toNat
  String.mk ((s.data.drop (min a b)).take (max a b - min a b))

/-- Hexadecimal digit (uppercase, as `encodeURIComponent` emits). -/
def hexDigit (n : Nat) : Char :=
  Char.ofNat (if n < 10 then 48 + n else 55 + n)

/-- Two-digit uppercase hex rendering of a byte. -/
def hexByte (b : Nat) : String :=
  String.mk [hexDigit (b / 16 % 16), hexDigit (b % 16)]

/-- UTF-8 bytes of a code point. -/
def utf8Bytes (n : Nat) : List Nat :=
  if n < 0x80 then [n]
  else if n < 0x800 then [0xC0 + n / 64, 0x80 + n % 64]
  else if n < 0x10000 then [0xE0 + n / 4096, 0x80 + n / 64 % 64, 0x80 + n % 64]
  else [0xF0 + n / 262144, 0x80 + n / 4096 % 64, 0x80 + n / 64 % 64, 0x80 + n % 64]

/-- Characters `encodeURIComponent` leaves unescaped: ASCII letters, digits,
and `- _ . ! ~ * ' ( )`. -/
def isUnescapedURIChar (c : Char) : Bool :=
  c.isAlpha || c.isDigit || c == Char.ofNat 45 || c == Char.ofNat 95 ||
  c == Char.ofNat 46 || c == Char.ofNat 33 || c == Char.ofNat 126 ||
  c == Char.ofNat 42 || c == Char.ofNat 39 || c == Char.ofNat 40 ||
  c == Char.ofNat 41

/-- JS `encodeURIComponent`: unescaped characters pass through, every other
character is percent-encoded byte-by-byte in UTF-8, uppercase hex. -/
def encodeURIComponent (s : String) : String :=
  String.join (s.data.map (fun c =>
    if isUnescapedURIChar c then String.mk [c]
    else String.join ((utf8Bytes c.toNat).map (fun b => "%" ++ hexByte b))))

example : encodeURIComponent "The Crow, 13 Raven St" = "The%20Crow%2C%2013%20Raven%20St" := by
  decide

example : jsToString (JSValue.arr [JSValue.str "a", JSValue.null, JSValue.str "b"]) = "a,,b" := by
  rfl

/-- The test `value === null || value === undefined || value === ''` shared by
both `safeDisplay` implementations (strict equality, so only the empty string
matches `''`). -/
def isNullUndefOrEmptyStr : JSValue → Bool
  | JSValue.null => true
  | JSValue.undefined => true
  | JSValue.str s => s == ""
  | _ => false

/-- What the results container holds after a render call: the empty-results
placeholder paragraph, a `<ul class="bar-list">` of rendered items, or an
error message block.  The three are produced by distinct code paths and are
pairwise distinct values. -/
inductive Rendered (α : Type) where
  | placeholderView (message : String)
  | listView (items : List α)
  | errorView (message : String)
deriving DecidableEq

/-- A DOM side effect the click handler performs on the page chrome, in
order: setting `loader.style.display`, clearing `resultsContainer.innerHTML`,
rendering into the results container, or setting `findBarsBtn.disabled`
(the last never occurs in any variant — see the C9 theorems). -/
inductive UIEffect (α : Type) where
  | loaderDisplay (value : String)
  | resultsCleared
  | resultsRendered (view : Rendered α)
  | buttonDisabled (value : Bool)
deriving DecidableEq

/-- A failure caught by a click handler's `catch` block: a platform
`GeolocationPositionError` carrying its numeric reason code, a JSON
`SyntaxError`, or a generic `Error` carrying its message. -/
inductive CaughtError where
  | geo (code : Nat)
  | syntaxErr (message : String)
  | err (message : String)

namespace WebhookV1

/-! `src/index.tsx`, first document (lines 1–148): the webhook-relay variant
with `displayResults` and the message-sniffing `handleError`. -/

/-- The `Bar` interface (lines 7–13): `rating: number | null`, other fields
as typed. -/
structure Bar where
  name : String
  vibe_tags : List String
  address : String
  rating : Option Rat
  opening_hours : String

/-- Line 37: `bar.rating !== null ? `...` ★ template`... : 'N/A'` — note the
check is `!== null`, so a 0 rating is displayed, not replaced by the
sentinel. -/
def ratingText (bar : Bar) : String :=
  match bar.rating with
  | some r => jsNumToString r ++ " ★"
  | none => "N/A"

/-- Line 53: `encodeURIComponent(bar.name + ', ' + bar.address)`. -/
def mapsQuery (bar : Bar) : String :=
  encodeURIComponent (bar.name ++ ", " ++ bar.address)

/-- The display-relevant parts of one `<li class="bar-item">` produced by
`displayResults` (lines 33–64). -/
structure RenderedBar where
  nameText : String
  vibeTags : List String
  ratingText : String
  hoursText : String
  addressText : String
  mapsQuery : String
deriving DecidableEq

/-- The body of the `bars.forEach` loop (lines 33–64): every entry yields one
list item; names, tags, hours and addresses are interpolated as given. -/
def renderBar (bar : Bar) : RenderedBar :=
  { nameText := bar.name
    vibeTags := bar.vibe_tags
    ratingText := ratingText bar
    hoursText := bar.opening_hours
    addressText := bar.address
    mapsQuery := mapsQuery bar }

/-- `displayResults` (lines 22–67): empty input renders the no-results
placeholder, otherwise one item per entry, in order. -/
def displayResults (bars : List Bar) : Rendered RenderedBar :=
  if bars.length = 0 then
    Rendered.placeholderView "No dark dives found in your vicinity. The void stares back."
  else
    Rendered.listView (bars.map renderBar)

/-- `handleError` (lines 69–85): substring dispatch over the error message,
first match wins, producing the user-facing message rendered into the error
block. -/
def handleError (message : String) : String :=
  if includesSub message "User denied Geolocation" then
    "Location access is required to find nearby bars. Please enable it and try again."
  else if includesSub message "timeout" then
    "Could not get your location in time. Please check your connection and try again."
  else if includesSub message "Geolocation is not supported" then
    "Geolocation is not supported by your browser."
  else if includesSub message "Webhook" || includesSub message "Failed to fetch" then
    "Could not fetch recommendations. The server might be down. Please try again later."
  else if includesSub message "Invalid data format" then
    "Received invalid data from the server. Please try again later."
  else
    "An unknown error occurred. Please try again."

/-- Lines 121–128: `if (typeof data === 'string') { try { data =
JSON.parse(data) } catch { throw ... } }`.  `JSON.parse` is a platform
primitive, taken as the oracle `parse` (`none` = parse exception); the second
component counts how many times it is invoked. -/
def secondDecode (parse : String → Option JSValue) (data : JSValue) :
    Except String JSValue × Nat :=
  match data with
  | JSValue.str s =>
      match parse s with
      | some v => (Except.ok v, 1)
      | none => (Except.error "Invalid data format: received a non-JSON string.", 1)
  | v => (Except.ok v, 0)

/-- Lines 130–132: `if (!data || !Array.isArray(data.bars)) throw ...`,
otherwise the pipeline proceeds with `data.bars`. -/
def getBars (data : JSValue) : Except String (List JSValue) :=
  if jsTruthy data = false then
    Except.error "Invalid data format received from webhook."
  else
    match getProp data "bars" with
    | JSValue.arr xs => Except.ok xs
    | _ => Except.error "Invalid data format received from webhook."

/-- Lines 119–135 composed: the post-fetch processing of the webhook body,
returning the venues array or the thrown message, together with the number of
extra `JSON.parse` passes performed. -/
def processWebhookData (parse : String → Option JSValue) (data : JSValue) :
    Except String (List JSValue) × Nat :=
  ((secondDecode parse data).1.bind getBars, (secondDecode parse data).2)

/-- Line 99: `navigator.geolocation.getCurrentPosition(resolve, reject,
{ timeout: 10000 })` — the timeout option passed to the platform call. -/
def geolocationTimeout : Option Nat := some 10000

/-- The ordered DOM side effects of the click handler (lines 88–144):
show the loader, clear the results, render the outcome (success list,
placeholder, or error message), hide the loader in `finally`.  No statement
of the handler touches `findBarsBtn.disabled`. -/
def clickTrace (outcome : Rendered RenderedBar) : List (UIEffect RenderedBar) :=
  [UIEffect.loaderDisplay "block", UIEffect.resultsCleared,
   UIEffect.resultsRendered outcome, UIEffect.loaderDisplay "none"]

end WebhookV1

namespace WebhookV2

/-! `src/index.tsx`, second document (lines 149–321): the webhook-relay
variant with `safeDisplay`, `renderResults` and `renderError`. -/

/-- `safeDisplay` (lines 245–253): `null`/`undefined`/`''` become `'N/A'`; a
non-array object becomes `'Info unavailable'`; everything else — including
arrays — is returned as `String(value)`. -/
def safeDisplay (value : JSValue) : String :=
  if isNullUndefOrEmptyStr value then "N/A"
  else if jsTypeof value == "object" && !(jsIsArray value) then "Info unavailable"
  else jsToString value

/-- A raw venue entry as the renderer actually receives it: the webhook body
is untrusted, so every field is an arbitrary `JSValue` (a missing property
reads as `undefined`). -/
structure BarRaw where
  name : JSValue
  vibe_tags : JSValue
  address : JSValue
  rating : JSValue
  opening_hours : JSValue

/-- Line 278: `bar.rating ? Number(bar.rating).toFixed(1) : 'N/A'` — a
truthiness test on the rating, then `toFixed(1)` on its `Number`
conversion. -/
def displayRating (rating : JSValue) : String :=
  if jsTruthy rating then toFixed1Opt (jsToNumber rating) else "N/A"

/-- Lines 285–287: `mapsName`/`mapsAddress` are the field when it is a string
and `''` otherwise, and the query is `encodeURIComponent(`template of
mapsName, a space, mapsAddress`)`. -/
def mapsQuery (name address : JSValue) : String :=
  encodeURIComponent
    ((match name with | JSValue.str s => s | _ => "") ++ " " ++
     (match address with | JSValue.str s => s | _ => ""))

/-- The display-relevant parts of one `<li class="bar-item">` produced by
`renderResults` (lines 270–306). -/
structure RenderedBar where
  displayName : String
  displayAddress : String
  displayHours : String
  displayRating : String
  vibeTagsHtml : String
  mapsQuery : String
deriving DecidableEq

/-- The body of the `bars.forEach` loop (lines 270–306): every entry yields
one list item; name, address and hours go through `safeDisplay`, the rating
through the truthy-`toFixed` expression, tags through `safeDisplay` when
`vibe_tags` is an array and an empty tag list otherwise. -/
def renderBar (bar : BarRaw) : RenderedBar :=
  { displayName := safeDisplay bar.name
    displayAddress := safeDisplay bar.address
    displayHours := safeDisplay bar.opening_hours
    displayRating := displayRating bar.rating
    vibeTagsHtml :=
      match bar.vibe_tags with
      | JSValue.arr tags =>
          String.join (tags.map (fun tag =>
            "<li class=\"vibe-tag\">" ++ safeDisplay tag ++ "</li>"))
      | _ => ""
    mapsQuery := mapsQuery bar.name bar.address }

/-- `renderResults` (lines 259–309): empty input renders the no-results
placeholder, otherwise one item per entry, in order.  (The `!bars` half of
the guard concerns a `null` argument, which a `List` cannot represent.) -/
def renderResults (bars : List BarRaw) : Rendered RenderedBar :=
  if bars.isEmpty then
    Rendered.placeholderView "No alternative bars found nearby. The darkness eludes you... for now."
  else
    Rendered.listView (bars.map renderBar)

/-- `renderError` (lines 315–317). -/
def renderError (message : String) : Rendered RenderedBar :=
  Rendered.errorView message

/-- The `catch` block (lines 207–233): a `GeolocationPositionError` is
switched on its code (`PERMISSION_DENIED = 1`, `POSITION_UNAVAILABLE = 2`,
`TIMEOUT = 3`, anything else keeps the generic message); a `SyntaxError` and
generic `Error`s get their own messages. -/
def classifyError : CaughtError → String
  | CaughtError.geo code =>
      if code = 1 then
        "Location permission denied. Please enable it in your browser settings to find nearby bars."
      else if code = 2 then
        "Location information is unavailable."
      else if code = 3 then
        "The request to get user location timed out."
      else
        "An unexpected error occurred. Please try again."
  | CaughtError.syntaxErr _ =>
      "Failed to read the list of bars. The format from the server was unexpected."
  | CaughtError.err m =>
      if includesSub m "Webhook request failed" then
        "Could not fetch data from the server. Please try again later."
      else m

/-- Line 183: `navigator.geolocation.getCurrentPosition(resolve, reject,
{ timeout: 10000 })`. -/
def geolocationTimeout : Option Nat := some 10000

/-- The ordered DOM side effects of the click handler (lines 172–238): show
the loader, clear the results, render the outcome, hide the loader in
`finally`.  No statement of the handler touches `findBarsBtn.disabled`. -/
def clickTrace (outcome : Rendered RenderedBar) : List (UIEffect RenderedBar) :=
  [UIEffect.loaderDisplay "block", UIEffect.resultsCleared,
   UIEffect.resultsRendered outcome, UIEffect.loaderDisplay "none"]

end WebhookV2

namespace Structured

/-! `src/unnamed/part_001`: the Gemini structured-schema variant. -/

/-- `safeDisplay` (lines 128–137): like the webhook variant's, but the object
test is bare `typeof value === 'object'`, so arrays also map to
`'Info unavailable'`. -/
def safeDisplay (value : JSValue) : String :=
  if isNullUndefOrEmptyStr value then "N/A"
  else if jsTypeof value == "object" then "Info unavailable"
  else jsToString value

/-- Lines 85–88: trim the response text; if it starts with a ```` ```json ````
fence, take `substring(7, length - 3)` and trim again. -/
def stripFence (responseText : String) : String :=
  let jsonString := jsTrim responseText
  if jsStartsWith jsonString "```json" then
    jsTrim (jsSubstring jsonString 7 ((jsonString.length : Int) - 3))
  else jsonString

/-- A raw venue entry as the renderer receives it (untrusted model output). -/
structure BarRaw where
  name : JSValue
  vibe_tags : JSValue
  address : JSValue
  rating : JSValue
  opening_hours : JSValue

/-- Line 175: `bar.rating ? bar.rating.toFixed(1) : 'N/A'`.  `toFixed` exists
only on numbers, so a truthy non-number rating throws a `TypeError` while the
entry's markup is built; the throw propagates out of `renderResults` to the
click handler's `catch` block.  The model returns the thrown message as
`Except.error`. -/
def displayRating (rating : JSValue) : Except String String :=
  if jsTruthy rating then
    match rating with
    | JSValue.num q => Except.ok (toFixed1 q)
    | _ => Except.error "bar.rating.toFixed is not a function"
  else Except.ok "N/A"

/-- Lines 159–160: `addressString` is the address when it is a string and
`''` otherwise; the query is `encodeURIComponent(`template of the raw name, a
comma and space, addressString`)` (the name is coerced by the template
literal). -/
def mapsQuery (name address : JSValue) : String :=
  encodeURIComponent
    (jsToString name ++ ", " ++
     (match address with | JSValue.str s => s | _ => ""))

/-- The display-relevant parts of one `<li class="bar-item">` produced by
`renderResults` (lines 154–186): note the `<h2>` interpolates `bar.name`
raw, without `safeDisplay`. -/
structure RenderedBar where
  nameHtml : String
  displayAddress : String
  displayHours : String
  displayRating : String
  vibeTagsHtml : String
  mapsQuery : String
deriving DecidableEq

/-- The body of the `bars.forEach` loop (lines 154–186): the only expression
in it that can throw is the rating's `.toFixed(1)` (see `displayRating`), so
an entry yields its item exactly when that succeeds. -/
def renderBar (bar : BarRaw) : Except String RenderedBar :=
  (displayRating bar.rating).map (fun ratingStr =>
    { nameHtml := jsToString bar.name
      displayAddress := safeDisplay bar.address
      displayHours := safeDisplay bar.opening_hours
      displayRating := ratingStr
      vibeTagsHtml :=
        match bar.vibe_tags with
        | JSValue.arr tags =>
            String.join (tags.map (fun tag =>
              "<li class=\"vibe-tag\">" ++ jsToString tag ++ "</li>"))
        | _ => ""
      mapsQuery := mapsQuery bar.name bar.address })

/-- The `bars.forEach` traversal: entries are rendered in order, and the
first throw aborts the rest of the loop (the partially built `<ul>` is never
attached, so no partial content survives the abort). -/
def renderList : List BarRaw → Except String (List RenderedBar)
  | [] => Except.ok []
  | b :: rest =>
      match renderBar b with
      | Except.ok item => (renderList rest).map (fun items => item :: items)
      | Except.error e => Except.error e

/-- `renderResults` (lines 143–189): empty input renders the no-results
placeholder; otherwise one item per entry in order, except that a `TypeError`
thrown while rendering an entry aborts the whole render and propagates to the
caller's `catch` block (which then shows an error view). -/
def renderResults (bars : List BarRaw) : Except String (Rendered RenderedBar) :=
  if bars.isEmpty then
    Except.ok (Rendered.placeholderView
      "No alternative bars found nearby. The darkness eludes you... for now.")
  else
    (renderList bars).map Rendered.listView

/-- `renderError` (lines 195–197). -/
def renderError (message : String) : Rendered RenderedBar :=
  Rendered.errorView message

/-- The `catch` block (lines 94–116): the same three-way switch on a
`GeolocationPositionError` code, its own `SyntaxError` message, and the raw
message of any other `Error`. -/
def classifyError : CaughtError → String
  | CaughtError.geo code =>
      if code = 1 then
        "Location permission denied. Please enable it in your browser settings to find nearby bars."
      else if code = 2 then
        "Location information is unavailable."
      else if code = 3 then
        "The request to get user location timed out."
      else
        "An unexpected error occurred. Please try again."
  | CaughtError.syntaxErr _ =>
      "Failed to read the list of bars from the AI. The format was unexpected. Please try again."
  | CaughtError.err m => m

/-- Line 65: `navigator.geolocation.getCurrentPosition(resolve, reject)` —
no options object is passed, so no timeout bounds the acquisition. -/
def geolocationTimeout : Option Nat := none

/-- The ordered DOM side effects of the click handler (lines 53–121): show
the loader, clear the results, render the outcome, hide the loader in
`finally`.  No statement of the handler touches `findBarsBtn.disabled`. -/
def clickTrace (outcome : Rendered RenderedBar) : List (UIEffect RenderedBar) :=
  [UIEffect.loaderDisplay "block", UIEffect.resultsCleared,
   UIEffect.resultsRendered outcome, UIEffect.loaderDisplay "none"]

end Structured

/-! ## Helper lemmas -/

theorem leadsWith_append (p l : List Char) : leadsWith p (p ++ l) = true := by
  induction p with
  | nil => rfl
  | cons a as ih => simp [leadsWith, ih]

theorem jsSubstring_eval (s : String) (i j : Nat) (hij : i ≤ j) (hj : j ≤ s.length) :
    jsSubstring s (i : Int) (j : Int) = String.mk ((s.data.drop i).take (j - i)) := by
  simp only [jsSubstring]
  have h1 : (max 0 (min (i : Int) (s.length : Int))).toNat = i := by omega
  have h2 : (max 0 (min (j : Int) (s.length : Int))).toNat = j := by omega
  rw [h1, h2, Nat.min_eq_left hij, Nat.max_eq_right hij]

theorem renderBar_ok_of_displayRating_ok (b : Structured.BarRaw) (s : String)
    (hs : Structured.displayRating b.rating = Except.ok s) :
    ∃ item, Structured.renderBar b = Except.ok item := by
  unfold Structured.renderBar
  rw [hs]
  exact ⟨_, rfl⟩

theorem renderList_ok_length (l : List Structured.BarRaw)
    (h : ∀ b ∈ l, ∃ item, Structured.renderBar b = Except.ok item) :
    ∃ items, Structured.renderList l = Except.ok items ∧ items.length = l.length := by
  induction l with
  | nil => exact ⟨[], rfl, rfl⟩
  | cons b rest ih =>
      obtain ⟨item, hitem⟩ := h b (List.mem_cons_self b rest)
      obtain ⟨items, hitems, hlen⟩ := ih (fun x hx => h x (List.mem_cons_of_mem b hx))
      refine ⟨item :: items, ?_, by simp [hlen]⟩
      simp [Structured.renderList, hitem, hitems, Except.map]

/-! ## Claims -/

/-- C1: the spec requires a rating of `0` to display as `"0.0"`, never as the
absent-rating sentinel.  Both renderers instead gate the rating on JS
truthiness, so the number `0` renders as `"N/A"` — exactly the naive
truthiness slip the spec singles out; the first variant's `!== null` check
(also proved here) shows the intended behaviour elsewhere in the same
repository. -/
theorem C1_rating_zero_renders_sentinel :
    WebhookV2.displayRating (JSValue.num 0) = "N/A"
  ∧ Structured.displayRating (JSValue.num 0) = Except.ok "N/A"
  ∧ WebhookV1.ratingText ⟨"The Crow", [], "13 Raven St", some 0, "8PM-2AM"⟩ = "0 ★" := by
  refine ⟨?_, ?_, ?_⟩
  · simp [WebhookV2.displayRating, jsTruthy]
  · simp [Structured.displayRating, jsTruthy]
  · simp [WebhookV1.ratingText, jsNumToString]; decide

/-- C5: each native geolocation reason code (`PERMISSION_DENIED = 1`,
`POSITION_UNAVAILABLE = 2`, `TIMEOUT = 3`) is mapped by both variants'
classifiers to its own category's user-facing message, and the three
messages are pairwise distinct; in particular a native permission-denied
failure yields the permission-denied message. -/
theorem C5_geolocation_code_classification :
    WebhookV2.classifyError (CaughtError.geo 1)
      = "Location permission denied. Please enable it in your browser settings to find nearby bars."
  ∧ WebhookV2.classifyError (CaughtError.geo 2) = "Location information is unavailable."
  ∧ WebhookV2.classifyError (CaughtError.geo 3) = "The request to get user location timed out."
  ∧ Structured.classifyError (CaughtError.geo 1)
      = "Location permission denied. Please enable it in your browser settings to find nearby bars."
  ∧ Structured.classifyError (CaughtError.geo 2) = "Location information is unavailable."
  ∧ Structured.classifyError (CaughtError.geo 3) = "The request to get user location timed out."
  ∧ WebhookV2.classifyError (CaughtError.geo 1) ≠ WebhookV2.classifyError (CaughtError.geo 2)
  ∧ WebhookV2.classifyError (CaughtError.geo 1) ≠ WebhookV2.classifyError (CaughtError.geo 3)
  ∧ WebhookV2.classifyError (CaughtError.geo 2) ≠ WebhookV2.classifyError (CaughtError.geo 3) := by
  refine ⟨rfl, rfl, rfl, rfl, rfl, rfl, ?_, ?_, ?_⟩ <;> decide

/-- C6: an empty top-level venue array is a successful outcome: it passes the
webhook shape check (`data.bars` is an array), and every renderer maps the
empty list to its specific no-results placeholder, a value distinct from
every error rendering. -/
theorem C6_empty_array_renders_no_results :
    WebhookV1.getBars (JSValue.obj [("bars", JSValue.arr [])]) = Except.ok []
  ∧ WebhookV1.displayResults []
      = Rendered.placeholderView "No dark dives found in your vicinity. The void stares back."
  ∧ WebhookV2.renderResults []
      = Rendered.placeholderView "No alternative bars found nearby. The darkness eludes you... for now."
  ∧ Structured.renderResults []
      = Except.ok (Rendered.placeholderView
          "No alternative bars found nearby. The darkness eludes you... for now.")
  ∧ (∀ m : String, WebhookV2.renderResults [] ≠ WebhookV2.renderError m)
  ∧ (∀ m : String, Structured.renderResults [] ≠ Except.ok (Structured.renderError m))
  ∧ (∀ m : String, WebhookV1.displayResults [] ≠ Rendered.errorView m) := by
  refine ⟨rfl, rfl, rfl, rfl, ?_, ?_, ?_⟩ <;>
    intro m <;> simp [WebhookV2.renderResults, Structured.renderResults,
      WebhookV1.displayResults, WebhookV2.renderError, Structured.renderError]

/-- C6 witness: the distinctness part of `C6_empty_array_renders_no_results`
instantiated at a concrete error message. -/
theorem C6_empty_array_renders_no_results_witness :
    WebhookV2.renderResults [] ≠ WebhookV2.renderError "boom" :=
  C6_empty_array_renders_no_results.2.2.2.2.1 "boom"

/-- C8: the claim says every variant bounds geolocation acquisition by a
10000 ms timeout; the structured-schema variant passes no options at all to
`getCurrentPosition`, so no explicit timeout bounds it there. -/
theorem C8_counterexample :
    Structured.geolocationTimeout = none
  ∧ Structured.geolocationTimeout ≠ some 10000 := by
  exact ⟨rfl, by simp [Structured.geolocationTimeout]⟩

/-- C8 amended: the two webhook variants invoke geolocation with
`{ timeout: 10000 }`; the structured-schema variant passes no timeout
option. -/
theorem C8_amended_timeouts :
    WebhookV1.geolocationTimeout = some 10000
  ∧ WebhookV2.geolocationTimeout = some 10000
  ∧ Structured.geolocationTimeout = none :=
  ⟨rfl, rfl, rfl⟩

/-- C10: the two `safeDisplay` implementations are not extensionally equal:
on the array `["Goth"]` the webhook variant returns the `String()` coercion
`"Goth"` while the structured variant returns `"Info unavailable"`. -/
theorem C10_counterexample :
    WebhookV2.safeDisplay (JSValue.arr [JSValue.str "Goth"]) = "Goth"
  ∧ Structured.safeDisplay (JSValue.arr [JSValue.str "Goth"]) = "Info unavailable"
  ∧ WebhookV2.safeDisplay (JSValue.arr [JSValue.str "Goth"])
      ≠ Structured.safeDisplay (JSValue.arr [JSValue.str "Goth"]) := by
  refine ⟨rfl, rfl, ?_⟩; decide

/-- C10 amended: the two `safeDisplay` implementations agree on every
non-array input; on arrays the structured variant returns
`"Info unavailable"` while the webhook variant returns the array's
`String()` coercion. -/
theorem C10_amended_safeDisplay_agreement (v : JSValue) (h : jsIsArray v = false) :
    WebhookV2.safeDisplay v = Structured.safeDisplay v
  ∧ (∀ elems, Structured.safeDisplay (JSValue.arr elems) = "Info unavailable")
  ∧ (∀ elems, WebhookV2.safeDisplay (JSValue.arr elems) = jsToString (JSValue.arr elems)) := by
  refine ⟨?_, fun elems => rfl, fun elems => rfl⟩
  cases v with
  | null => rfl
  | undefined => rfl
  | bool b => rfl
  | num q => rfl
  | str s => rfl
  | arr elems => exact absurd h (by simp [jsIsArray])
  | obj fields => rfl

/-- C10 witness: `C10_amended_safeDisplay_agreement` at `null`. -/
theorem C10_amended_safeDisplay_agreement_witness :
    WebhookV2.safeDisplay JSValue.null = Structured.safeDisplay JSValue.null :=
  (C10_amended_safeDisplay_agreement JSValue.null rfl).1

/-- C2: the claim says a non-string name always renders as a sentinel
placeholder.  It fails twice: the second webhook variant's `safeDisplay`
passes arrays through `String()`, so an array name renders as its joined
content rather than a sentinel; and the structured variant interpolates
`bar.name` raw into the `<h2>`, so an object name renders as
`"[object Object]"`. -/
theorem C2_counterexample :
    (WebhookV2.renderBar
        ⟨JSValue.arr [JSValue.str "The Crow"], JSValue.undefined, JSValue.undefined,
         JSValue.undefined, JSValue.undefined⟩).displayName = "The Crow"
  ∧ "The Crow" ≠ "N/A"
  ∧ "The Crow" ≠ "Info unavailable"
  ∧ Except.map Structured.RenderedBar.nameHtml
      (Structured.renderBar
        ⟨JSValue.obj [("en", JSValue.str "The Crow")], JSValue.undefined, JSValue.undefined,
         JSValue.undefined, JSValue.undefined⟩) = Except.ok "[object Object]" := by
  refine ⟨rfl, by decide, by decide, rfl⟩

/-- C2 amended: no record is ever silently dropped.  The second webhook
variant emits exactly one item per entry, unconditionally; a name that is
`null`, `undefined`, the empty string, or a non-array object renders as a
sentinel (`"N/A"` / `"Info unavailable"`), but an array name renders as its
`String()` coercion.  The structured variant emits one item per entry
whenever every entry's rating is falsy or numeric, rendering the name raw
(its template-literal coercion), so an object name leaks as
`"[object Object]"`; a truthy non-numeric rating instead throws, aborting
the whole batch render (the caller's `catch` shows an error view) rather
than dropping individual records. -/
theorem C2_amended_name_handling (bars : List WebhookV2.BarRaw)
    (barsS : List Structured.BarRaw) (h : bars ≠ [])
    (hS : ∀ b ∈ barsS, jsTruthy b.rating = false ∨ ∃ q, b.rating = JSValue.num q) :
    WebhookV2.renderResults bars = Rendered.listView (bars.map WebhookV2.renderBar)
  ∧ (bars.map WebhookV2.renderBar).length = bars.length
  ∧ (∀ b ∈ bars, (WebhookV2.renderBar b).displayName = WebhookV2.safeDisplay b.name)
  ∧ WebhookV2.safeDisplay JSValue.null = "N/A"
  ∧ WebhookV2.safeDisplay JSValue.undefined = "N/A"
  ∧ WebhookV2.safeDisplay (JSValue.str "") = "N/A"
  ∧ (∀ fields, WebhookV2.safeDisplay (JSValue.obj fields) = "Info unavailable")
  ∧ (∀ elems, WebhookV2.safeDisplay (JSValue.arr elems) = jsToString (JSValue.arr elems))
  ∧ (∀ (b : Structured.BarRaw) (item : Structured.RenderedBar),
      Structured.renderBar b = Except.ok item → item.nameHtml = jsToString b.name)
  ∧ (barsS ≠ [] → ∃ items, Structured.renderResults barsS
        = Except.ok (Rendered.listView items) ∧ items.length = barsS.length)
  ∧ (∀ (b : Structured.BarRaw), jsTruthy b.rating = true →
      (∀ q, b.rating ≠ JSValue.num q) →
      Structured.renderBar b = Except.error "bar.rating.toFixed is not a function") := by
  refine ⟨?_, by simp, fun b _ => rfl, rfl, rfl, rfl,
    fun fields => rfl, fun elems => rfl, ?_, ?_, ?_⟩
  · cases bars with
    | nil => exact absurd rfl h
    | cons b bs => rfl
  · intro b item hitem
    unfold Structured.renderBar at hitem
    cases hdr : Structured.displayRating b.rating with
    | ok s =>
        rw [hdr] at hitem
        simp only [Except.map, Except.ok.injEq] at hitem
        rw [← hitem]
    | error e =>
        rw [hdr] at hitem
        simp [Except.map] at hitem
  · intro hne
    have hok : ∀ b ∈ barsS, ∃ item, Structured.renderBar b = Except.ok item := by
      intro b hb
      rcases hS b hb with hf | ⟨q, hq⟩
      · exact renderBar_ok_of_displayRating_ok b "N/A"
          (by simp [Structured.displayRating, hf])
      · rcases htq : jsTruthy b.rating with _ | _
        · exact renderBar_ok_of_displayRating_ok b "N/A"
            (by simp [Structured.displayRating, htq])
        · have htq2 : jsTruthy (JSValue.num q) = true := hq ▸ htq
          exact renderBar_ok_of_displayRating_ok b (toFixed1 q)
            (by simp [Structured.displayRating, hq, htq2])
    obtain ⟨items, hitems, hlen⟩ := renderList_ok_length barsS hok
    refine ⟨items, ?_, hlen⟩
    have hemp : barsS.isEmpty = false := by
      cases barsS with
      | nil => exact absurd rfl hne
      | cons b bs => rfl
    unfold Structured.renderResults
    rw [hemp]
    simp only [Bool.false_eq_true, if_false]
    rw [hitems]
    rfl
  · intro b ht hnq
    have hdr : Structured.displayRating b.rating
        = Except.error "bar.rating.toFixed is not a function" := by
      cases hr : b.rating with
      | num q => exact absurd hr (hnq q)
      | null => rw [hr] at ht; simp [jsTruthy] at ht
      | undefined => rw [hr] at ht; simp [jsTruthy] at ht
      | bool c => rw [hr] at ht; simp [Structured.displayRating, ht]
      | str t => rw [hr] at ht; simp [Structured.displayRating, ht]
      | arr elems => rw [hr] at ht; simp [Structured.displayRating, ht]
      | obj fields => rw [hr] at ht; simp [Structured.displayRating, ht]
    unfold Structured.renderBar
    rw [hdr]
    rfl

/-- C2 witness: `C2_amended_name_handling` at singleton batches with a
`null` name (and an absent rating, so the structured hypothesis holds). -/
theorem C2_amended_name_handling_witness :
    WebhookV2.renderResults [⟨JSValue.null, JSValue.undefined, JSValue.undefined,
        JSValue.undefined, JSValue.undefined⟩]
      = Rendered.listView
          ([⟨JSValue.null, JSValue.undefined, JSValue.undefined,
             JSValue.undefined, JSValue.undefined⟩].map WebhookV2.renderBar)
  ∧ WebhookV2.safeDisplay JSValue.null = "N/A" :=
  ⟨(C2_amended_name_handling
      [⟨JSValue.null, JSValue.undefined, JSValue.undefined, JSValue.undefined, JSValue.undefined⟩]
      [⟨JSValue.null, JSValue.undefined, JSValue.undefined, JSValue.undefined, JSValue.undefined⟩]
      (by simp) (by intro b hb; simp at hb; subst hb; exact Or.inl rfl)).1,
   (C2_amended_name_handling
      [⟨JSValue.null, JSValue.undefined, JSValue.undefined, JSValue.undefined, JSValue.undefined⟩]
      [⟨JSValue.null, JSValue.undefined, JSValue.undefined, JSValue.undefined, JSValue.undefined⟩]
      (by simp) (by intro b hb; simp at hb; subst hb; exact Or.inl rfl)).2.2.2.1⟩

/-- C3: the webhook variant performs exactly one extra `JSON.parse` pass when
the fetched body is a string (and none otherwise); a failing second decode
throws the non-JSON-string message, a decoded value without a `bars` array
throws the invalid-format message, and `handleError` maps both messages to
the malformed-data user message (the `MalformedResponse` category). -/
theorem C3_webhook_double_decode (parse : String → Option JSValue) (s : String) :
    (WebhookV1.processWebhookData parse (JSValue.str s)).2 = 1
  ∧ (∀ v : JSValue, (∀ t, v ≠ JSValue.str t) →
      (WebhookV1.processWebhookData parse v).2 = 0)
  ∧ (parse s = none →
      (WebhookV1.processWebhookData parse (JSValue.str s)).1
        = Except.error "Invalid data format: received a non-JSON string.")
  ∧ (∀ v : JSValue, parse s = some v →
      (∀ xs, getProp v "bars" ≠ JSValue.arr xs) →
      (WebhookV1.processWebhookData parse (JSValue.str s)).1
        = Except.error "Invalid data format received from webhook.")
  ∧ WebhookV1.handleError "Invalid data format: received a non-JSON string."
      = "Received invalid data from the server. Please try again later."
  ∧ WebhookV1.handleError "Invalid data format received from webhook."
      = "Received invalid data from the server. Please try again later." := by
  refine ⟨?_, ?_, ?_, ?_, by decide, by decide⟩
  · rcases hp : parse s with _ | v <;>
      simp [WebhookV1.processWebhookData, WebhookV1.secondDecode, hp]
  · intro v hv
    cases v with
    | str t => exact absurd rfl (hv t)
    | null => rfl
    | undefined => rfl
    | bool b => rfl
    | num q => rfl
    | arr elems => rfl
    | obj fields => rfl
  · intro hp
    simp [WebhookV1.processWebhookData, WebhookV1.secondDecode, hp, Except.bind]
  · intro v hp hbars
    have hg : (WebhookV1.processWebhookData parse (JSValue.str s)).1
        = WebhookV1.getBars v := by
      simp [WebhookV1.processWebhookData, WebhookV1.secondDecode, hp, Except.bind]
    rw [hg]
    unfold WebhookV1.getBars
    rcases htv : jsTruthy v with _ | _
    · simp
    · rcases hg2 : getProp v "bars" with _ | _ | b | q | t | xs | fields
      · rfl
      · rfl
      · rfl
      · rfl
      · rfl
      · exact absurd hg2 (hbars xs)
      · rfl

/-- C3 witness: `C3_webhook_double_decode` with a parse oracle that always
fails, at the double-encoded body `"not json"` of Scenario C. -/
theorem C3_webhook_double_decode_witness :
    (WebhookV1.processWebhookData (fun _ => none) (JSValue.str "not json")).1
      = Except.error "Invalid data format: received a non-JSON string." :=
  (C3_webhook_double_decode (fun _ => none) "not json").2.2.1 rfl

/-- C7: the claim says every variant builds the directions query as
`encodeURIComponent(name + ", " + address)`.  The second webhook variant's
`renderResults` instead joins name and address with a bare space (no comma),
so its query differs from the claimed one. -/
theorem C7_counterexample :
    WebhookV2.mapsQuery (JSValue.str "The Crow") (JSValue.str "13 Raven St")
      ≠ encodeURIComponent ("The Crow" ++ ", " ++ "13 Raven St")
  ∧ WebhookV2.mapsQuery (JSValue.str "The Crow") (JSValue.str "13 Raven St")
      = encodeURIComponent ("The Crow" ++ " " ++ "13 Raven St") := by
  exact ⟨by decide, rfl⟩

/-- C7 amended: the first webhook variant's `displayResults` and the
structured variant's `renderResults` build the query as
`encodeURIComponent(name + ", " + address)`; the second webhook variant's
`renderResults` builds `encodeURIComponent(name + " " + address)` — a space
separator without the comma (with non-string fields replaced by the empty
string first). -/
theorem C7_amended_directions_query (name address : String)
    (tags : List String) (rating : Option Rat) (hours : String) :
    WebhookV1.mapsQuery ⟨name, tags, address, rating, hours⟩
      = encodeURIComponent (name ++ ", " ++ address)
  ∧ Structured.mapsQuery (JSValue.str name) (JSValue.str address)
      = encodeURIComponent (name ++ ", " ++ address)
  ∧ WebhookV2.mapsQuery (JSValue.str name) (JSValue.str address)
      = encodeURIComponent (name ++ " " ++ address) :=
  ⟨rfl, rfl, rfl⟩

/-- C7 witness: `C7_amended_directions_query` at concrete fields. -/
theorem C7_amended_directions_query_witness :
    WebhookV2.mapsQuery (JSValue.str "A") (JSValue.str "B")
      = encodeURIComponent ("A" ++ " " ++ "B") :=
  (C7_amended_directions_query "A" "B" [] none "").2.2

/-- C4: the fenced-code-block stripping of the structured-schema variant is
the identity on (trimmed) input that does not start with the ```` ```json ````
fence marker, and on fence-wrapped input ```` ```json<body>``` ```` it removes
exactly the leading 7-character fence marker and the trailing 3-character
fence, returning the (trimmed) body unchanged. -/
theorem C4_fence_strip (s body : String) :
    (jsStartsWith (jsTrim s) "```json" = false → Structured.stripFence s = jsTrim s)
  ∧ (jsTrim s = s → jsStartsWith s "```json" = false → Structured.stripFence s = s)
  ∧ (jsTrim body = body →
      Structured.stripFence ("```json" ++ body ++ "```") = body) := by
  refine ⟨?_, ?_, ?_⟩
  · intro h
    simp [Structured.stripFence, h]
  · intro ht h
    simp [Structured.stripFence, ht, h]
  · intro hb
    obtain ⟨l⟩ := body
    have hdata : ("```json" ++ String.mk l ++ "```").data
        = "```json".data ++ (l ++ "```".data) := by
      simp [String.data_append]
    have hlp : ("```json".data).length = 7 := by decide
    have hlt : ("```".data).length = 3 := by decide
    have hlist : ((("```json".data ++ (l ++ "```".data)).dropWhile
          Char.isWhitespace).reverse.dropWhile Char.isWhitespace).reverse
        = "```json".data ++ (l ++ "```".data) := by
      simp [List.dropWhile_append, List.reverse_append]
    have h1 : jsTrim ("```json" ++ String.mk l ++ "```")
        = "```json" ++ String.mk l ++ "```" := by
      show String.mk _ = _
      rw [hdata, hlist, ← hdata]
    have h2 : jsStartsWith ("```json" ++ String.mk l ++ "```") "```json" = true := by
      show leadsWith _ _ = true
      rw [hdata]
      exact leadsWith_append _ _
    have hlen : ("```json" ++ String.mk l ++ "```").length = l.length + 10 := by
      show (("```json" ++ String.mk l ++ "```").data).length = _
      rw [hdata]
      simp [List.length_append, hlp, hlt]
    have harg : ((("```json" ++ String.mk l ++ "```").length : Int) - 3)
        = ((l.length + 7 : Nat) : Int) := by
      rw [hlen]; push_cast; ring
    have h3 : jsSubstring ("```json" ++ String.mk l ++ "```") 7
        ((("```json" ++ String.mk l ++ "```").length : Int) - 3) = String.mk l := by
      rw [harg,
        show (7 : Int) = ((7 : Nat) : Int) from rfl,
        jsSubstring_eval _ 7 (l.length + 7) (by omega) (by rw [hlen]; omega)]
      rw [hdata, ← hlp, List.drop_left]
      have : l.length + 7 - 7 = l.length := by omega
      rw [hlp, this, List.take_left]
    simp only [Structured.stripFence]
    rw [h1, if_pos h2, h3]
    exact hb

/-- C4 witness: `C4_fence_strip` at bare and at fence-wrapped concrete
JSON. -/
theorem C4_fence_strip_witness :
    Structured.stripFence "[1,2]" = "[1,2]"
  ∧ Structured.stripFence ("```json" ++ "[1,2]" ++ "```") = "[1,2]" :=
  ⟨(C4_fence_strip "[1,2]" "x").2.1 (by decide) (by decide),
   (C4_fence_strip "x" "[1,2]").2.2 (by decide)⟩

/-- C9: the claim says the trigger control is disabled while a run is in
flight.  No variant's click handler ever touches `findBarsBtn.disabled`: the
disabling effect occurs nowhere in any handler's DOM-effect trace. -/
theorem C9_counterexample :
    UIEffect.buttonDisabled true ∉ WebhookV1.clickTrace (Rendered.placeholderView "x")
  ∧ UIEffect.buttonDisabled true ∉ WebhookV2.clickTrace (Rendered.placeholderView "x")
  ∧ UIEffect.buttonDisabled true ∉ Structured.clickTrace (Rendered.placeholderView "x") := by
  refine ⟨?_, ?_, ?_⟩ <;> decide

/-- C9 amended: each handler shows the loader at the start of a run and hides
it again when the run settles (loading feedback), but none ever disables the
trigger control, so a second click during a run is not prevented. -/
theorem C9_amended_no_disable (outcome1 : Rendered WebhookV1.RenderedBar)
    (outcome2 : Rendered WebhookV2.RenderedBar)
    (outcomeS : Rendered Structured.RenderedBar) :
    (WebhookV2.clickTrace outcome2).head? = some (UIEffect.loaderDisplay "block")
  ∧ (WebhookV2.clickTrace outcome2).getLast? = some (UIEffect.loaderDisplay "none")
  ∧ (∀ b, UIEffect.buttonDisabled b ∉ WebhookV1.clickTrace outcome1)
  ∧ (∀ b, UIEffect.buttonDisabled b ∉ WebhookV2.clickTrace outcome2)
  ∧ (∀ b, UIEffect.buttonDisabled b ∉ Structured.clickTrace outcomeS) := by
  refine ⟨rfl, rfl, ?_, ?_, ?_⟩ <;>
    intro b <;>
    simp [WebhookV1.clickTrace, WebhookV2.clickTrace, Structured.clickTrace]

/-- C9 witness: `C9_amended_no_disable` at concrete outcomes. -/
theorem C9_amended_no_disable_witness :
    UIEffect.buttonDisabled false
      ∉ WebhookV2.clickTrace (Rendered.placeholderView "y") :=
  (C9_amended_no_disable (Rendered.placeholderView "y") (Rendered.placeholderView "y")
    (Rendered.placeholderView "y")).2.2.2.1 false
